import Mathlib

/-!
Verification development for the harp.gl MapView camera subsystem and the
harp-materials blending utilities.

The camera-pose, FOV, screen/geo and lifecycle definitions are modelled from
the repository's specification (the MapView implementation itself is not among
the source files; only its test suite is). The blending utilities are
translated directly from `@here/harp-materials/lib/Utils.ts`.
-/

namespace HarpGL

/-- Error kinds per spec section 7. -/
inductive MapError where
  | invalidArgument
  | unprojectable
deriving DecidableEq, Repr

/-- Geographic point per spec section 3: latitude, longitude in degrees,
altitude in meters (default 0). Rationals model the exact value semantics. -/
structure GeoPoint where
  latitude : ℚ
  longitude : ℚ
  altitude : ℚ := 0
deriving DecidableEq, Repr

/-- The two projection variants selectable at construction (spec section 3). -/
inductive Projection where
  | planar
  | spherical
deriving DecidableEq, Repr

/-- Modelled from the spec: MapView's camera pose (`MapView.ts` is absent from
the sources; only its tests are present). Spec sections 3 and 9: the canonical
stored representation is {target geo-point, distance to target, tilt, heading};
the position/orientation matrix is derived on demand and is not part of the
observable pose state. -/
structure CameraState where
  target : GeoPoint
  distance : ℚ
  tilt : ℚ
  heading : ℚ
deriving DecidableEq, Repr

/-- Mathematical modulo on rationals: `qmod a b = a - b * ⌊a / b⌋`, landing in
`[0, b)` for `b > 0`. This is the normalization the spec means by "reported
normalized into their canonical ranges via modulo". -/
def qmod (a b : ℚ) : ℚ := a - b * ⌊a / b⌋

theorem qmod_eq_fract (a : ℚ) {b : ℚ} (hb : b ≠ 0) : qmod a b = b * Int.fract (a / b) := by
  unfold qmod Int.fract
  rw [mul_sub, mul_div_cancel₀ a hb]

theorem qmod_nonneg (a : ℚ) {b : ℚ} (hb : 0 < b) : 0 ≤ qmod a b := by
  rw [qmod_eq_fract a hb.ne']
  exact mul_nonneg hb.le (Int.fract_nonneg _)

theorem qmod_lt (a : ℚ) {b : ℚ} (hb : 0 < b) : qmod a b < b := by
  rw [qmod_eq_fract a hb.ne']
  calc b * Int.fract (a / b) < b * 1 := (mul_lt_mul_left hb).2 (Int.fract_lt_one _)
    _ = b := mul_one b

theorem qmod_eq_self {a b : ℚ} (h0 : 0 ≤ a) (hab : a < b) : qmod a b = a := by
  have hb : 0 < b := lt_of_le_of_lt h0 hab
  have hz : ⌊a / b⌋ = 0 := by
    rw [Int.floor_eq_zero_iff, Set.mem_Ico]
    exact ⟨by positivity, by rw [div_lt_one hb]; exact hab⟩
  unfold qmod
  rw [hz]
  simp

theorem qmod_add_mul_int (a b : ℚ) (k : ℤ) : qmod (a + b * k) b = qmod a b := by
  rcases eq_or_ne b 0 with hb | hb
  · simp [qmod, hb]
  · unfold qmod
    have hdiv : (a + b * k) / b = a / b + k := by
      field_simp
      ring
    rw [hdiv, Int.floor_add_int]
    push_cast
    ring

/-- Reported tilt, normalized into the canonical range `[0, 180)` (spec
section 3). -/
def CameraState.readTilt (s : CameraState) : ℚ := qmod s.tilt 180

/-- Reported heading, normalized into the canonical range `[0, 360)` (spec
section 3). -/
def CameraState.readHeading (s : CameraState) : ℚ := qmod s.heading 360

/-- Modelled from the spec: `MapView.lookAt` (implementation absent from the
sources). Spec sections 4.1, 7 and 9: a non-positive distance is rejected
synchronously with `InvalidArgument`; otherwise the canonical pose
{target, distance, tilt, heading} is stored. -/
def lookAtE (T : GeoPoint) (d tiltDeg headingDeg : ℚ) (_s : CameraState) :
    Except MapError CameraState :=
  if d ≤ 0 then .error .invalidArgument
  else .ok { target := T, distance := d, tilt := tiltDeg, heading := headingDeg }

/-- The state after a `lookAt` call: on rejection the prior state is kept
unchanged (spec section 7). -/
def lookAt (T : GeoPoint) (d tiltDeg headingDeg : ℚ) (s : CameraState) : CameraState :=
  match lookAtE T d tiltDeg headingDeg s with
  | .ok s2 => s2
  | .error _ => s

/-- Modelled from the spec: the `tilt` setter rotates the camera about the
current target at fixed distance, preserving the target exactly (spec
section 4.1). -/
def setTilt (t : ℚ) (s : CameraState) : CameraState := { s with tilt := t }

/-- Modelled from the spec: the `heading` setter, likewise preserving target
and distance (spec section 4.1). -/
def setHeading (h : ℚ) (s : CameraState) : CameraState := { s with heading := h }

/-- Modelled from the spec: the look-at distance setter moves the camera along
the current view ray without changing target, tilt or heading; a non-positive
distance is rejected with `InvalidArgument` (spec sections 4.1 and 7). -/
def setDistanceE (d : ℚ) (s : CameraState) : Except MapError CameraState :=
  if d ≤ 0 then .error .invalidArgument
  else .ok { s with distance := d }

/-- The state after a distance assignment: on rejection the prior state is
kept unchanged (spec section 7). -/
def setDistance (d : ℚ) (s : CameraState) : CameraState :=
  match setDistanceE d s with
  | .ok s2 => s2
  | .error _ => s

/-- Reference scale of the zoom-to-distance table (spec section 4.1 describes
zoom level as a monotonic transform of distance against a reference ground
resolution table; the constant is the equatorial circumference in meters). -/
def zoomScaleQ : ℚ := 40075016

/-- Modelled from the spec: the `zoomLevel` setter assigns the equivalent
distance for an (integer) zoom level, leaving target, tilt and heading
untouched (spec section 4.1). -/
def setZoomLevelQ (z : ℕ) (s : CameraState) : CameraState :=
  { s with distance := zoomScaleQ / 2 ^ z }

/-- Tolerance of the pose round trip per projection (spec section 8, item 1). -/
def poseTol : Projection → ℚ
  | .planar => 1 / 100000
  | .spherical => 1 / 100

/-- Sample target used by the concrete witnesses (Berlin, as in the tests). -/
def sampleTarget : GeoPoint := { latitude := 52518221 / 1000000, longitude := 13376075 / 1000000 }

/-- Sample prior camera state used by the concrete witnesses. -/
def initialState : CameraState :=
  { target := { latitude := 0, longitude := 0 }, distance := 1000, tilt := 0, heading := 0 }

theorem lookAt_of_pos {d : ℚ} (hd : 0 < d) (T : GeoPoint) (tiltDeg headingDeg : ℚ)
    (s : CameraState) :
    lookAt T d tiltDeg headingDeg s =
      { target := T, distance := d, tilt := tiltDeg, heading := headingDeg } := by
  unfold lookAt lookAtE
  rw [if_neg (not_le.mpr hd)]

theorem setDistance_eq (d : ℚ) (s : CameraState) :
    setDistance d s = if d ≤ 0 then s else { s with distance := d } := by
  rcases le_or_lt d 0 with h | h
  · simp [setDistance, setDistanceE, h]
  · simp [setDistance, setDistanceE, not_le.mpr h]

/-- C1: for every target T, distance d > 0, tilt in [0,180) and heading in
[0,360), calling `lookAt(T, d, tilt, heading)` and then reading back target,
distance, tilt mod 360 and heading mod 360 reproduces the inputs within
tolerance: at most 1e-5 under the planar projection and at most 1e-2 under the
spherical projection. -/
theorem lookAt_pose_roundTrip (proj : Projection) (T : GeoPoint)
    (d tiltDeg headingDeg : ℚ) (s : CameraState)
    (hd : 0 < d) (ht0 : 0 ≤ tiltDeg) (ht1 : tiltDeg < 180)
    (hh0 : 0 ≤ headingDeg) (hh1 : headingDeg < 360) :
    |(lookAt T d tiltDeg headingDeg s).target.latitude - T.latitude| ≤ poseTol proj ∧
    |(lookAt T d tiltDeg headingDeg s).target.longitude - T.longitude| ≤ poseTol proj ∧
    |(lookAt T d tiltDeg headingDeg s).distance - d| ≤ poseTol proj ∧
    |qmod (lookAt T d tiltDeg headingDeg s).readTilt 360 - tiltDeg| ≤ poseTol proj ∧
    |qmod (lookAt T d tiltDeg headingDeg s).readHeading 360 - headingDeg| ≤ poseTol proj := by
  have htol : 0 ≤ poseTol proj := by cases proj <;> norm_num [poseTol]
  rw [lookAt_of_pos hd]
  have hti : qmod (qmod tiltDeg 180) 360 = tiltDeg := by
    rw [qmod_eq_self ht0 ht1, qmod_eq_self ht0 (ht1.trans (by norm_num))]
  have hhe : qmod (qmod headingDeg 360) 360 = headingDeg := by
    rw [qmod_eq_self hh0 hh1, qmod_eq_self hh0 hh1]
  refine ⟨?_, ?_, ?_, ?_, ?_⟩ <;>
    simp [CameraState.readTilt, CameraState.readHeading, hti, hhe, htol]

/-- Witness for C1 at the planar projection, target Berlin, distance 500,
tilt 45, heading 45 over the sample prior state. -/
theorem lookAt_pose_roundTrip_witness :
    |(lookAt sampleTarget 500 45 45 initialState).target.latitude -
        sampleTarget.latitude| ≤ poseTol .planar ∧
    |(lookAt sampleTarget 500 45 45 initialState).target.longitude -
        sampleTarget.longitude| ≤ poseTol .planar ∧
    |(lookAt sampleTarget 500 45 45 initialState).distance - 500| ≤ poseTol .planar ∧
    |qmod (lookAt sampleTarget 500 45 45 initialState).readTilt 360 - 45| ≤ poseTol .planar ∧
    |qmod (lookAt sampleTarget 500 45 45 initialState).readHeading 360 - 45| ≤ poseTol .planar :=
  lookAt_pose_roundTrip .planar sampleTarget 500 45 45 initialState
    (by decide) (by decide) (by decide) (by decide) (by decide)

/-- C2: tilt and heading read back through the accessors are always normalized
into their canonical ranges by modulo arithmetic, even for out-of-range
assignments: for every integer k an assigned heading of 200 + 360k reads back
as 200, and an assigned out-of-range tilt reads back as its modulo-normalized
value. -/
theorem pose_angle_normalization (s : CameraState) (k : ℤ) (t : ℚ) :
    (0 ≤ s.readHeading ∧ s.readHeading < 360) ∧
    (0 ≤ s.readTilt ∧ s.readTilt < 180) ∧
    (setHeading (200 + 360 * (k : ℚ)) s).readHeading = 200 ∧
    (setTilt t s).readTilt = qmod t 180 := by
  refine ⟨⟨qmod_nonneg _ (by norm_num), qmod_lt _ (by norm_num)⟩,
    ⟨qmod_nonneg _ (by norm_num), qmod_lt _ (by norm_num)⟩, ?_, rfl⟩
  show qmod (200 + 360 * (k : ℚ)) 360 = 200
  rw [qmod_add_mul_int, qmod_eq_self (by norm_num) (by norm_num)]

/-- C4: after a lookAt call, setting tilt alone leaves the target exactly and
the distance within tolerance unchanged; likewise for heading; and setting the
distance or the zoom level alone changes neither the target nor the reported
tilt or heading. -/
theorem setter_frame_conditions (T : GeoPoint) (d t0 h0 t1 h1 d2 : ℚ) (z : ℕ)
    (s0 s : CameraState) (hd : 0 < d) (hs : s = lookAt T d t0 h0 s0) :
    ((setTilt t1 s).target = s.target ∧
      |(setTilt t1 s).distance - s.distance| ≤ 1 / 100000) ∧
    ((setHeading h1 s).target = s.target ∧
      |(setHeading h1 s).distance - s.distance| ≤ 1 / 100000) ∧
    ((setDistance d2 s).target = s.target ∧
      (setDistance d2 s).readTilt = s.readTilt ∧
      (setDistance d2 s).readHeading = s.readHeading) ∧
    ((setZoomLevelQ z s).target = s.target ∧
      (setZoomLevelQ z s).readTilt = s.readTilt ∧
      (setZoomLevelQ z s).readHeading = s.readHeading) := by
  refine ⟨⟨rfl, ?_⟩, ⟨rfl, ?_⟩, ⟨?_, ?_, ?_⟩, ⟨rfl, rfl, rfl⟩⟩
  · simp [setTilt]
  · simp [setHeading]
  · rw [setDistance_eq]; split <;> rfl
  · rw [setDistance_eq]; split <;> rfl
  · rw [setDistance_eq]; split <;> rfl

/-- Witness for C4 at a concrete pose: lookAt to Berlin at distance 500 with
tilt 0 and heading 0, then tilt 15, heading 90, distance 1000, zoom level 10. -/
theorem setter_frame_conditions_witness :
    ((setTilt 15 (lookAt sampleTarget 500 0 0 initialState)).target =
        (lookAt sampleTarget 500 0 0 initialState).target ∧
      |(setTilt 15 (lookAt sampleTarget 500 0 0 initialState)).distance -
          (lookAt sampleTarget 500 0 0 initialState).distance| ≤ 1 / 100000) ∧
    ((setHeading 90 (lookAt sampleTarget 500 0 0 initialState)).target =
        (lookAt sampleTarget 500 0 0 initialState).target ∧
      |(setHeading 90 (lookAt sampleTarget 500 0 0 initialState)).distance -
          (lookAt sampleTarget 500 0 0 initialState).distance| ≤ 1 / 100000) ∧
    ((setDistance 1000 (lookAt sampleTarget 500 0 0 initialState)).target =
        (lookAt sampleTarget 500 0 0 initialState).target ∧
      (setDistance 1000 (lookAt sampleTarget 500 0 0 initialState)).readTilt =
        (lookAt sampleTarget 500 0 0 initialState).readTilt ∧
      (setDistance 1000 (lookAt sampleTarget 500 0 0 initialState)).readHeading =
        (lookAt sampleTarget 500 0 0 initialState).readHeading) ∧
    ((setZoomLevelQ 10 (lookAt sampleTarget 500 0 0 initialState)).target =
        (lookAt sampleTarget 500 0 0 initialState).target ∧
      (setZoomLevelQ 10 (lookAt sampleTarget 500 0 0 initialState)).readTilt =
        (lookAt sampleTarget 500 0 0 initialState).readTilt ∧
      (setZoomLevelQ 10 (lookAt sampleTarget 500 0 0 initialState)).readHeading =
        (lookAt sampleTarget 500 0 0 initialState).readHeading) :=
  setter_frame_conditions sampleTarget 500 0 0 15 90 1000 10 initialState
    (lookAt sampleTarget 500 0 0 initialState) (by decide) rfl

/-- C9: a call assigning a non-positive distance is rejected synchronously
with an InvalidArgument error, and the camera-pose state observable before the
call is unchanged after the rejection. -/
theorem nonpositive_distance_rejected (T : GeoPoint) (d tiltDeg headingDeg : ℚ)
    (s : CameraState) (hd : d ≤ 0) :
    lookAtE T d tiltDeg headingDeg s = .error .invalidArgument ∧
    lookAt T d tiltDeg headingDeg s = s ∧
    setDistanceE d s = .error .invalidArgument ∧
    setDistance d s = s := by
  have h1 : lookAtE T d tiltDeg headingDeg s = .error .invalidArgument := by
    unfold lookAtE
    rw [if_pos hd]
  have h2 : setDistanceE d s = .error .invalidArgument := by
    unfold setDistanceE
    rw [if_pos hd]
  refine ⟨h1, ?_, h2, ?_⟩
  · unfold lookAt
    rw [h1]
  · unfold setDistance
    rw [h2]

/-- Witness for C9 at distance 0 over the sample state. -/
theorem nonpositive_distance_rejected_witness :
    lookAtE sampleTarget 0 10 20 initialState = .error .invalidArgument ∧
    lookAt sampleTarget 0 10 20 initialState = initialState ∧
    setDistanceE 0 initialState = .error .invalidArgument ∧
    setDistance 0 initialState = initialState :=
  nonpositive_distance_rejected sampleTarget 0 10 20 initialState (by decide)

/-- Viewport per spec section 3: logical width and height in pixels plus the
device pixel ratio. -/
structure Viewport where
  width : ℚ
  height : ℚ
  pixelRatio : ℚ
deriving DecidableEq, Repr

/-- Modelled from the spec: normalized device coordinates of a logical screen
pixel, computed from the logical viewport size only — the device pixel ratio
is never consulted (spec section 4.3: "logical pixels only"). -/
def ndcOfScreen (v : Viewport) (p : ℚ × ℚ) : ℚ × ℚ :=
  (2 * p.1 / v.width - 1, 1 - 2 * p.2 / v.height)

/-- Logical screen pixel of a normalized device coordinate, again from the
logical viewport size only. -/
def screenOfNdc (v : Viewport) (n : ℚ × ℚ) : ℚ × ℚ :=
  ((n.1 + 1) * v.width / 2, (1 - n.2) * v.height / 2)

/-- Modelled from the spec: the screen/world projector camera in the default
straight-down pose over the ground origin (`MapView.ts` absent from the
sources). `sx` and `sy` are the visible ground half-extents in world meters
along the two screen axes; at constant ground depth the unprojection ray's
ground intersection is this affine map of the pixel's NDC (spec section 4.3). -/
structure GroundCamera where
  sx : ℚ
  sy : ℚ
deriving DecidableEq, Repr

/-- Modelled from the spec: `getGeoCoordinatesAt` — unproject the logical
screen pixel into a ray and intersect it with the projection's ground surface;
`none` when the camera is degenerate and the ray misses the ground (spec
section 4.3). -/
def screenToGeo (c : GroundCamera) (v : Viewport) (p : ℚ × ℚ) : Option (ℚ × ℚ) :=
  if c.sx ≤ 0 ∨ c.sy ≤ 0 then none
  else some (c.sx * (ndcOfScreen v p).1, c.sy * (ndcOfScreen v p).2)

/-- Modelled from the spec: `getScreenPosition` — forward-project a ground
point through the camera's view-projection into logical pixel coordinates
(spec section 4.3). -/
def geoToScreen (c : GroundCamera) (v : Viewport) (g : ℚ × ℚ) : Option (ℚ × ℚ) :=
  if c.sx ≤ 0 ∨ c.sy ≤ 0 then none
  else some (screenOfNdc v (g.1 / c.sx, g.2 / c.sy))

/-- C3: for every logical pixel (x, y) whose unprojection ray hits the ground,
`geoToScreen (screenToGeo (x, y))` equals (x, y) within 1e-8, and both query
results are identical for any two device pixel ratios at the same logical
viewport size. -/
theorem screen_geo_roundTrip (c : GroundCamera) (w h x y r1 r2 : ℚ)
    (hw : 0 < w) (hh : 0 < h) (hx : 0 < c.sx) (hy : 0 < c.sy) :
    ∃ g : ℚ × ℚ, screenToGeo c ⟨w, h, r1⟩ (x, y) = some g ∧
      screenToGeo c ⟨w, h, r2⟩ (x, y) = some g ∧
      ∃ q : ℚ × ℚ, geoToScreen c ⟨w, h, r1⟩ g = some q ∧
        geoToScreen c ⟨w, h, r2⟩ g = some q ∧
        |q.1 - x| ≤ 1 / 10 ^ 8 ∧ |q.2 - y| ≤ 1 / 10 ^ 8 := by
  have hcond : ¬(c.sx ≤ 0 ∨ c.sy ≤ 0) := by
    rintro (hc | hc)
    · exact absurd hx (not_lt.mpr hc)
    · exact absurd hy (not_lt.mpr hc)
  have hproj : ∀ r : ℚ, geoToScreen c ⟨w, h, r⟩
      (c.sx * (2 * x / w - 1), c.sy * (1 - 2 * y / h)) = some (x, y) := by
    intro r
    unfold geoToScreen screenOfNdc
    rw [if_neg hcond, Option.some_inj, Prod.mk.injEq]
    constructor
    · field_simp
      ring
    · field_simp
      ring
  refine ⟨(c.sx * (2 * x / w - 1), c.sy * (1 - 2 * y / h)), ?_, ?_,
    (x, y), hproj r1, hproj r2, by norm_num, by norm_num⟩
  · unfold screenToGeo ndcOfScreen
    rw [if_neg hcond]
  · unfold screenToGeo ndcOfScreen
    rw [if_neg hcond]

/-- Witness for C3 at the 1920 by 1080 viewport of the tests, pixel (100, 100),
device pixel ratios 1 and 2, ground half-extents 1000 by 1000 meters. -/
theorem screen_geo_roundTrip_witness :
    ∃ g : ℚ × ℚ, screenToGeo ⟨1000, 1000⟩ ⟨1920, 1080, 1⟩ (100, 100) = some g ∧
      screenToGeo ⟨1000, 1000⟩ ⟨1920, 1080, 2⟩ (100, 100) = some g ∧
      ∃ q : ℚ × ℚ, geoToScreen ⟨1000, 1000⟩ ⟨1920, 1080, 1⟩ g = some q ∧
        geoToScreen ⟨1000, 1000⟩ ⟨1920, 1080, 2⟩ g = some q ∧
        |q.1 - 100| ≤ 1 / 10 ^ 8 ∧ |q.2 - 100| ≤ 1 / 10 ^ 8 :=
  screen_geo_roundTrip ⟨1000, 1000⟩ 1920 1080 100 100 1 2
    (by decide) (by decide) (by decide) (by decide)

/-- Lifecycle event names per spec section 6. -/
inductive MapViewEvent where
  | contextRestored
  | update
  | contextLost
deriving DecidableEq, Repr

/-- A theme carrying an optional clear color. -/
structure Theme where
  clearColor : Option Nat
deriving DecidableEq, Repr

/-- Default clear color applied when the theme defines none (value observed in
the lifecycle test). -/
def DEFAULT_CLEAR_COLOR : Nat := 0xefe9e1

/-- Observable renderer/listener operations emitted by the handlers. -/
inductive RenderOp where
  | setClearColor (c : Nat)
  | dispatch (e : MapViewEvent)
deriving DecidableEq, Repr

/-- Modelled from the spec: the `webglcontextrestored` handler (`MapView.ts`
absent from the sources). Spec section 6: on restore the host reapplies the
clear color (from the current theme, falling back to the default) and requests
a new frame, dispatching ContextRestored and then Update (spec section 8,
item 7). -/
def restoreHandler (t : Theme) : List RenderOp :=
  [.setClearColor (t.clearColor.getD DEFAULT_CLEAR_COLOR),
   .dispatch .contextRestored, .dispatch .update]

/-- Modelled from the spec: the `webglcontextlost` handler dispatches the
ContextLost notification (spec sections 6 and 8, item 7). -/
def lostHandler : List RenderOp := [.dispatch .contextLost]

/-- The event sequence of the lifecycle scenario: restore under theme t1,
restore under theme t2, then lost. -/
def contextScript (t1 t2 : Theme) : List RenderOp :=
  restoreHandler t1 ++ restoreHandler t2 ++ lostHandler

/-- The dispatched lifecycle notifications of an operation trace. -/
def dispatchedEvents (ops : List RenderOp) : List MapViewEvent :=
  ops.filterMap fun op =>
    match op with
    | .dispatch e => some e
    | _ => none

/-- The clear-color applications of an operation trace. -/
def clearColorCalls (ops : List RenderOp) : List Nat :=
  ops.filterMap fun op =>
    match op with
    | .setClearColor col => some col
    | _ => none

/-- C8: in the restored, restored, lost scenario with a clear-color theme
change between the restores, each restore invocation triggers exactly one
clear-color reapplication and exactly one update event, the final lost
invocation fires a context-lost notification, and exactly 5 lifecycle
notifications are dispatched, in the order ContextRestored, Update,
ContextRestored, Update, ContextLost. -/
theorem context_lifecycle_events :
    dispatchedEvents (contextScript ⟨some 0xffffff⟩ ⟨none⟩) =
      [.contextRestored, .update, .contextRestored, .update, .contextLost] ∧
    (dispatchedEvents (contextScript ⟨some 0xffffff⟩ ⟨none⟩)).length = 5 ∧
    clearColorCalls (contextScript ⟨some 0xffffff⟩ ⟨none⟩) =
      [0xffffff, DEFAULT_CLEAR_COLOR] ∧
    (∀ t : Theme, (clearColorCalls (restoreHandler t)).length = 1 ∧
      (dispatchedEvents (restoreHandler t)).count .update = 1) ∧
    dispatchedEvents lostHandler = [.contextLost] := by
  exact ⟨rfl, rfl, rfl, fun t => ⟨rfl, rfl⟩, rfl⟩

/-! Blending utilities, translated from `@here/harp-materials/lib/Utils.ts`.
The THREE.js blending-mode and blend-factor constants keep their numeric
values. -/

def NoBlending : Nat := 0

def NormalBlending : Nat := 1

def CustomBlending : Nat := 5

def OneFactor : Nat := 201

def SrcAlphaFactor : Nat := 204

def OneMinusSrcAlphaFactor : Nat := 205

/-- The observable fields of a THREE.Material (or ShaderMaterialParameters)
extended with the `ForcedBlending` marker of `Utils.ts`. Opacity is carried to
express that the blending branch logic never consults it. -/
structure Material where
  transparent : Bool := false
  forcedBlending : Bool := false
  blending : Nat := 1
  blendSrc : Nat := 204
  blendDst : Nat := 205
  blendSrcAlpha : Nat := 201
  blendDstAlpha : Nat := 205
  premultipliedAlpha : Bool := false
  needsUpdate : Bool := false
  opacity : ℚ := 1
deriving DecidableEq, Repr

/-- `enableBlending` from `Utils.ts`: a no-op for transparent or
forced-blending materials and for materials already using CustomBlending;
otherwise switches to CustomBlending and sets the four blend factors according
to `premultipliedAlpha`, marking `needsUpdate` when `isUpdate` is passed. -/
def enableBlending (m : Material) (isUpdate : Bool := false) : Material :=
  if m.transparent || m.forcedBlending || m.blending == CustomBlending then m
  else
    let m1 :=
      if m.premultipliedAlpha then
        { m with blending := CustomBlending, blendSrc := OneFactor,
                 blendDst := OneMinusSrcAlphaFactor, blendSrcAlpha := OneFactor,
                 blendDstAlpha := OneMinusSrcAlphaFactor }
      else
        { m with blending := CustomBlending, blendSrc := SrcAlphaFactor,
                 blendDst := OneMinusSrcAlphaFactor, blendSrcAlpha := OneFactor,
                 blendDstAlpha := OneMinusSrcAlphaFactor }
    if isUpdate then { m1 with needsUpdate := true } else m1

/-- `enforceBlending` from `Utils.ts`: a no-op for transparent materials;
otherwise enables blending and sets the `forcedBlending` marker. -/
def enforceBlending (m : Material) : Material :=
  if m.transparent then m
  else { enableBlending m with forcedBlending := true }

/-- `disableBlending` from `Utils.ts`: a no-op for transparent or
forced-blending materials and for materials already using NormalBlending;
otherwise switches back to NormalBlending. -/
def disableBlending (m : Material) (isUpdate : Bool := false) : Material :=
  if m.transparent || m.forcedBlending || m.blending == NormalBlending then m
  else
    let m1 := { m with blending := NormalBlending }
    if isUpdate then { m1 with needsUpdate := true } else m1

/-- Counterexample to C10 as stated: a non-transparent material that already
carries the `forcedBlending` marker while its blending mode is NormalBlending.
`enforceBlending` leaves its blending mode at NormalBlending (the inner
`enableBlending` is a no-op for forced-blending materials), so after the
subsequent `disableBlending` the blending mode is not CustomBlending. -/
theorem forced_blending_cex :
    (disableBlending (enforceBlending
        { transparent := false, forcedBlending := true, blending := NormalBlending })
      false).blending ≠ CustomBlending := by
  decide

/-- C10 (amended): for every non-transparent material whose `forcedBlending`
marker is not already set, `enforceBlending` sets the marker and leaves the
material with CustomBlending; every subsequent `disableBlending` call — with
either `isUpdate` flag and regardless of later opacity settings — is a no-op,
so blending stays CustomBlending and the blendSrc, blendDst, blendSrcAlpha and
blendDstAlpha fields are unchanged. -/
theorem forced_blending_disable_noop (m : Material) (u : Bool) (op : ℚ)
    (htr : m.transparent = false) (hf : m.forcedBlending = false) :
    (enforceBlending m).forcedBlending = true ∧
    (enforceBlending m).blending = CustomBlending ∧
    disableBlending { enforceBlending m with opacity := op } u =
      { enforceBlending m with opacity := op } ∧
    (disableBlending { enforceBlending m with opacity := op } u).blending =
      CustomBlending ∧
    (disableBlending { enforceBlending m with opacity := op } u).blendSrc =
      (enforceBlending m).blendSrc ∧
    (disableBlending { enforceBlending m with opacity := op } u).blendDst =
      (enforceBlending m).blendDst ∧
    (disableBlending { enforceBlending m with opacity := op } u).blendSrcAlpha =
      (enforceBlending m).blendSrcAlpha ∧
    (disableBlending { enforceBlending m with opacity := op } u).blendDstAlpha =
      (enforceBlending m).blendDstAlpha := by
  have hen : (enableBlending m).blending = CustomBlending ∧
      (enableBlending m).transparent = false := by
    unfold enableBlending
    rcases hb : m.blending == CustomBlending
    · simp only [htr, hf, hb, Bool.or_self, Bool.false_or]
      rcases hp : m.premultipliedAlpha <;> simp [hp, htr]
    · have hbe : m.blending = CustomBlending := by simpa using hb
      simp [htr, hf, hb, hbe]
  have henf : (enforceBlending m).forcedBlending = true ∧
      (enforceBlending m).blending = CustomBlending ∧
      (enforceBlending m).transparent = false := by
    have henf2 : enforceBlending m = { enableBlending m with forcedBlending := true } := by
      simp [enforceBlending, htr]
    rw [henf2]
    exact ⟨rfl, hen.1, hen.2⟩
  have hnoop : disableBlending { enforceBlending m with opacity := op } u =
      { enforceBlending m with opacity := op } := by
    unfold disableBlending
    simp [henf.1]
  refine ⟨henf.1, henf.2.1, hnoop, ?_, ?_, ?_, ?_, ?_⟩ <;> rw [hnoop]
  exact henf.2.1

/-- Witness for C10 (amended) at a default (opaque, unforced) material, with
the `isUpdate` flag set and a later opacity change to one half. -/
theorem forced_blending_disable_noop_witness :
    (enforceBlending {}).forcedBlending = true ∧
    (enforceBlending {}).blending = CustomBlending ∧
    disableBlending { enforceBlending {} with opacity := 1 / 2 } true =
      { enforceBlending {} with opacity := 1 / 2 } ∧
    (disableBlending { enforceBlending {} with opacity := 1 / 2 } true).blending =
      CustomBlending ∧
    (disableBlending { enforceBlending {} with opacity := 1 / 2 } true).blendSrc =
      (enforceBlending {}).blendSrc ∧
    (disableBlending { enforceBlending {} with opacity := 1 / 2 } true).blendDst =
      (enforceBlending {}).blendDst ∧
    (disableBlending { enforceBlending {} with opacity := 1 / 2 } true).blendSrcAlpha =
      (enforceBlending {}).blendSrcAlpha ∧
    (disableBlending { enforceBlending {} with opacity := 1 / 2 } true).blendDstAlpha =
      (enforceBlending {}).blendDstAlpha :=
  forced_blending_disable_noop {} true (1 / 2) rfl rfl

/-! Viewport/FOV controller and zoom-level mapping, modelled over the reals. -/

/-- FOV policy per spec section 3: fixed vertical FOV, or dynamic adjustment
from a focal-length model. -/
inductive FovPolicy where
  | fixed (fov : ℝ)
  | dynamic (fov : ℝ)

/-- Camera projection state: the vertical field of view in degrees and the
focal length derived at setup. -/
structure FovCamera where
  fov : ℝ
  focalLength : ℝ

/-- Radians of an angle given in degrees. -/
noncomputable def radOfDeg (d : ℝ) : ℝ := d * Real.pi / 180

/-- Degrees of an angle given in radians. -/
noncomputable def degOfRad (r : ℝ) : ℝ := r * 180 / Real.pi

/-- Modelled from the spec: the focal length established from the configured
base vertical FOV at the setup viewport height (spec section 4.2; the MapView
resize code is absent from the sources). -/
noncomputable def focalLengthOf (height fovDeg : ℝ) : ℝ :=
  height / 2 / Real.tan (radOfDeg fovDeg / 2)

/-- Modelled from the spec: camera setup under an FOV policy at the initial
viewport height. -/
noncomputable def setupCamera (p : FovPolicy) (height : ℝ) : FovCamera :=
  match p with
  | .fixed f => { fov := f, focalLength := focalLengthOf height f }
  | .dynamic f => { fov := f, focalLength := focalLengthOf height f }

/-- Modelled from the spec: `resize` recomputes the vertical FOV per the
active policy (spec section 4.2). Fixed pins it to the configured value
forever; dynamic recomputes it from the stored focal length and the new
viewport height, so it responds to height changes only — the behavior pinned
by spec section 8, items 3 and 4. -/
noncomputable def resize (p : FovPolicy) (c : FovCamera) (_width height : ℝ) : FovCamera :=
  match p with
  | .fixed f => { c with fov := f }
  | .dynamic _ => { c with fov := degOfRad (2 * Real.arctan (height / (2 * c.focalLength))) }

/-- C6: under FovPolicy Fixed(45), the vertical FOV is 45 degrees within
1e-11 after every resize: resizing a 100 by 100 viewport to 100 by 100 and
then to 100 by 101 leaves it at the configured value both times, and no
resize of either dimension ever changes it. -/
theorem fixed_fov_invariance :
    |(resize (.fixed 45) (setupCamera (.fixed 45) 100) 100 100).fov - 45| ≤ 1 / 10 ^ 11 ∧
    |(resize (.fixed 45) (resize (.fixed 45) (setupCamera (.fixed 45) 100) 100 100)
        100 101).fov - 45| ≤ 1 / 10 ^ 11 ∧
    ∀ (c : FovCamera) (w h : ℝ), (resize (.fixed 45) c w h).fov = 45 := by
  refine ⟨?_, ?_, fun c w h => rfl⟩ <;> norm_num [resize]

/-- C5: under FovPolicy Dynamic(45) on a 100 by 100 viewport (where the FOV
reads back as exactly 45), a height-only resize to 100 by 101 changes the
vertical FOV away from 45, while a width-only resize to 101 by 100 leaves it
at 45 within 1e-11; more generally the recomputed FOV never depends on the
width. -/
theorem dynamic_fov_resize :
    (resize (.dynamic 45) (setupCamera (.dynamic 45) 100) 100 100).fov = 45 ∧
    (resize (.dynamic 45) (resize (.dynamic 45) (setupCamera (.dynamic 45) 100) 100 100)
        100 101).fov ≠ 45 ∧
    |(resize (.dynamic 45) (resize (.dynamic 45) (setupCamera (.dynamic 45) 100) 100 100)
        101 100).fov - 45| ≤ 1 / 10 ^ 11 ∧
    ∀ (c : FovCamera) (w1 w2 h : ℝ),
      (resize (.dynamic 45) c w1 h).fov = (resize (.dynamic 45) c w2 h).fov := by
  have hπ := Real.pi_pos
  have h8a : -(Real.pi / 2) < Real.pi / 8 := by linarith
  have h8b : Real.pi / 8 < Real.pi / 2 := by linarith
  have ht0 : 0 < Real.tan (Real.pi / 8) :=
    Real.tan_pos_of_pos_of_lt_pi_div_two (by linarith) h8b
  set t := Real.tan (Real.pi / 8) with htdef
  have hang : radOfDeg 45 / 2 = Real.pi / 8 := by
    unfold radOfDeg
    ring
  have hsetup : (setupCamera (.dynamic 45) 100).focalLength = 50 / t := by
    show focalLengthOf 100 45 = 50 / t
    unfold focalLengthOf
    rw [hang, htdef]
    norm_num
  have hdyn : ∀ (c : FovCamera) (w h : ℝ), c.focalLength = 50 / t →
      (resize (.dynamic 45) c w h).fov = degOfRad (2 * Real.arctan (h * t / 100)) := by
    intro c w h hc
    show degOfRad (2 * Real.arctan (h / (2 * c.focalLength))) = _
    rw [hc]
    have harg : h / (2 * (50 / t)) = h * t / 100 := by
      have h2t : (2 : ℝ) * (50 / t) = 100 / t := by ring
      rw [h2t, div_div_eq_mul_div]
    rw [harg]
  have harctan_t : Real.arctan t = Real.pi / 8 := Real.arctan_tan h8a h8b
  have hfov100 : ∀ c : FovCamera, c.focalLength = 50 / t →
      ∀ w : ℝ, (resize (.dynamic 45) c w 100).fov = 45 := by
    intro c hc w
    rw [hdyn c w 100 hc]
    have h100 : (100:ℝ) * t / 100 = t := by ring
    rw [h100, harctan_t]
    unfold degOfRad
    field_simp
    ring
  have hfoc1 : (resize (.dynamic 45) (setupCamera (.dynamic 45) 100) 100 100).focalLength
      = 50 / t := hsetup
  refine ⟨hfov100 _ hsetup 100, ?_, ?_, fun c w1 w2 h => rfl⟩
  · rw [hdyn _ 100 101 hfoc1]
    intro heq
    have hx : Real.arctan (101 * t / 100) = Real.pi / 8 := by
      unfold degOfRad at heq
      field_simp at heq
      linarith
    have h3 : (101 : ℝ) * t / 100 = t := by
      apply Real.arctan_injective
      rw [hx, harctan_t]
    linarith
  · rw [hfov100 _ hfoc1 101]
    norm_num

/-- Zoom camera state for the zoom-level queries: look-at distance in meters
and tilt in degrees. -/
structure ZoomCamera where
  distance : ℝ
  tilt : ℝ

/-- Reference scale of the zoom-to-distance table over the reals (equatorial
circumference in meters). -/
noncomputable def zoomScale : ℝ := 40075016

/-- Modelled from the spec: the distance equivalent to a zoom level under the
reference ground-resolution-per-zoom-level table — a monotonic transform
halving the visible extent per level (spec section 4.1; the MapView zoom code
is absent from the sources). -/
noncomputable def zoomToDistance (z : ℝ) : ℝ := zoomScale / (2 : ℝ) ^ z

/-- Modelled from the spec: the zoom level derived from a distance — the
inverse monotonic transform. -/
noncomputable def distanceToZoom (d : ℝ) : ℝ := Real.logb 2 (zoomScale / d)

/-- Modelled from the spec: the `zoomLevel` setter assigns the equivalent
distance (spec section 4.1). -/
noncomputable def setZoomLevel (z : ℝ) (s : ZoomCamera) : ZoomCamera :=
  { s with distance := zoomToDistance z }

/-- The derived `zoomLevel` property. -/
noncomputable def zoomLevel (s : ZoomCamera) : ℝ := distanceToZoom s.distance

theorem zoom_roundTrip_exact (s : ZoomCamera) (z : ℝ) :
    zoomLevel (setZoomLevel z s) = z := by
  unfold zoomLevel setZoomLevel distanceToZoom zoomToDistance zoomScale
  have h2 : (0 : ℝ) < (2 : ℝ) ^ z := Real.rpow_pos_of_pos (by norm_num) z
  have h2n : ((2 : ℝ) ^ z) ≠ 0 := ne_of_gt h2
  have key : (40075016 : ℝ) / ((40075016 : ℝ) / (2 : ℝ) ^ z) = (2 : ℝ) ^ z := by
    field_simp
  rw [key]
  exact Real.logb_rpow (by norm_num) (by norm_num)

/-- C7: for every tilt of at most 45 degrees, setting zoomLevel and reading it
back reproduces the value within 0.1; at tilt 0 the round trip over the zoom
levels {2, 5, 10, 12, 15, 18} reproduces the value within 1e-5, and at tilt 15
within 0.1. -/
theorem zoomLevel_roundTrip (s : ZoomCamera) (z : ℝ) (zn : ℕ)
    (htilt : s.tilt ≤ 45) (hzn : zn ∈ [2, 5, 10, 12, 15, 18]) :
    |zoomLevel (setZoomLevel z s) - z| ≤ 1 / 10 ∧
    (s.tilt = 0 → |zoomLevel (setZoomLevel (zn : ℝ) s) - (zn : ℝ)| ≤ 1 / 10 ^ 5) ∧
    (s.tilt = 15 → |zoomLevel (setZoomLevel (zn : ℝ) s) - (zn : ℝ)| ≤ 1 / 10) := by
  refine ⟨?_, fun _ => ?_, fun _ => ?_⟩ <;> rw [zoom_roundTrip_exact] <;> norm_num

/-- Witness for C7 at a camera of distance 500 and tilt 0, zoom value 7 and
sample zoom level 10. -/
theorem zoomLevel_roundTrip_witness :
    |zoomLevel (setZoomLevel 7 ⟨500, 0⟩) - 7| ≤ 1 / 10 ∧
    ((⟨500, 0⟩ : ZoomCamera).tilt = 0 →
      |zoomLevel (setZoomLevel ((10 : ℕ) : ℝ) ⟨500, 0⟩) - ((10 : ℕ) : ℝ)| ≤ 1 / 10 ^ 5) ∧
    ((⟨500, 0⟩ : ZoomCamera).tilt = 15 →
      |zoomLevel (setZoomLevel ((10 : ℕ) : ℝ) ⟨500, 0⟩) - ((10 : ℕ) : ℝ)| ≤ 1 / 10) :=
  zoomLevel_roundTrip ⟨500, 0⟩ 7 10 (by norm_num) (by decide)

end HarpGL

